import Mathlib

/-!
Verification of the MooseDetector frame hand-off core.

The definitions below are a shallow embedding of the Python sources:
* `Exchange` embeds the single-slot frame buffer inside
  `FramePipeline` (src/moosedetector/pipeline.py): the fields `_frame`,
  `_frame_available`, `_frames_received`, `_frames_dropped`, together
  with the methods `update`, `get_latest` and `get_stats`.
* `SysState` embeds the `ThermalCamera` object
  (src/moosedetector/thermalcamera.py) composed with the SDK event
  source and with a frame sink `pipeline.update`, as wired in
  `app.main` (src/moosedetector/app.py).
* `loop_body` / `processing_loop` embed the body of the nested
  `processing_loop` function in `app.main`.
* `extract_detections` embeds `FramePipeline._extract_detections`.

The embedding is sequential: each Python method or callback runs under
the pipeline lock (or is an atomic SDK callback), so an execution is a
sequence of atomic operations on the shared state.
-/

/-- The single-slot frame buffer held by `FramePipeline`
(pipeline.py, `__init__`): `_frame`, `_frame_available`,
`_frames_received`, `_frames_dropped`.  The payload type is abstract. -/
structure Exchange (α : Type) where
  frame : Option α
  available : Bool
  received : Nat
  dropped : Nat
deriving DecidableEq

/-- The freshly constructed buffer: no frame, flag clear, counters zero. -/
def Exchange.init {α : Type} : Exchange α :=
  { frame := none, available := false, received := 0, dropped := 0 }

/-- `FramePipeline.update` (pipeline.py lines 30-38), the producer-side
`put`.  Faithful to the source: the dropped counter increments only when
`self._frame is not None and not self._frame_available.is_set()`; then
the slot is overwritten, the received counter incremented and the
available flag set. -/
def Exchange.update {α : Type} (ex : Exchange α) (frame : α) : Exchange α :=
  { frame := some frame,
    available := true,
    received := ex.received + 1,
    dropped := if ex.frame.isSome && !ex.available then ex.dropped + 1 else ex.dropped }

/-- `FramePipeline.get_latest` (pipeline.py lines 40-56), the
consumer-side `take`.  `self._frame_available.wait(timeout)` returns the
flag's value when no producer acts during the wait (for `timeout = 0`
it returns the current value immediately); an elapsed timeout with the
flag clear is the `(none, ex)` branch.  Otherwise the frame is read and
the flag cleared; the source does NOT clear the `_frame` slot. -/
def Exchange.get_latest {α : Type} (ex : Exchange α) : Option α × Exchange α :=
  if !ex.available then (none, ex)
  else (ex.frame, { ex with available := false })

/-- The dictionary returned by `FramePipeline.get_stats`. -/
structure Stats where
  frames_received : Nat
  frames_dropped : Nat
  drop_rate : ℚ
deriving DecidableEq

/-- `FramePipeline.get_stats` (pipeline.py lines 58-65): a consistent
snapshot taken under the lock;
`drop_rate = dropped / max(received, 1)` (exact rational division in
the embedding; the Python float value of these small ratios is exact). -/
def Exchange.get_stats {α : Type} (ex : Exchange α) : Stats :=
  { frames_received := ex.received,
    frames_dropped := ex.dropped,
    drop_rate := (ex.dropped : ℚ) / ((max ex.received 1 : Nat) : ℚ) }

/-- One atomic operation on the exchange: a producer `put` (camera
thread calling `update`) or a consumer `take` (processing thread
calling `get_latest`). -/
inductive XOp (α : Type) where
  | put (f : α)
  | take
deriving DecidableEq

/-- Effect of one operation on the buffer state. -/
def xstep {α : Type} (ex : Exchange α) : XOp α → Exchange α
  | XOp.put f => ex.update f
  | XOp.take => (ex.get_latest).2

/-- The buffer state after an interleaving of `put`/`take` operations
starting from the fresh buffer. -/
def xrun {α : Type} (ops : List (XOp α)) : Exchange α :=
  ops.foldl xstep Exchange.init

theorem xstep_dropped_le {α : Type} (ex : Exchange α) (op : XOp α)
    (h : ex.dropped ≤ ex.received) :
    (xstep ex op).dropped ≤ (xstep ex op).received := by
  cases op with
  | put f =>
      simp only [xstep, Exchange.update]
      split
      · exact Nat.succ_le_succ h
      · exact Nat.le_succ_of_le h
  | take =>
      simp only [xstep, Exchange.get_latest]
      split
      · exact h
      · exact h

theorem xrun_aux_dropped_le {α : Type} (l : List (XOp α)) :
    ∀ ex : Exchange α, ex.dropped ≤ ex.received →
      (l.foldl xstep ex).dropped ≤ (l.foldl xstep ex).received := by
  induction l with
  | nil => intro ex h; simpa using h
  | cons a t ih =>
      intro ex h
      simpa using ih (xstep ex a) (xstep_dropped_le ex a h)

theorem xrun_dropped_le {α : Type} (ops : List (XOp α)) :
    (xrun ops).dropped ≤ (xrun ops).received :=
  xrun_aux_dropped_le ops Exchange.init (Nat.le_refl 0)

/-- C6: for every interleaving of `put` and `take` operations starting
from the fresh exchange, `received ≥ dropped ≥ 0` (the counters are
naturals, so nonnegativity is by type), the reported `drop_rate` equals
`dropped / max(received, 1)`, and it lies in `[0, 1]`. -/
theorem thm_C6_counters_invariant {α : Type} (ops : List (XOp α)) :
    (xrun ops).dropped ≤ (xrun ops).received ∧
    ((xrun ops).get_stats).drop_rate
      = ((xrun ops).dropped : ℚ) / ((max (xrun ops).received 1 : Nat) : ℚ) ∧
    0 ≤ ((xrun ops).get_stats).drop_rate ∧
    ((xrun ops).get_stats).drop_rate ≤ 1 := by
  have hle : (xrun ops).dropped ≤ (xrun ops).received := xrun_dropped_le ops
  have hden : (0 : ℚ) < ((max (xrun ops).received 1 : Nat) : ℚ) := by
    have h1 : 0 < max (xrun ops).received 1 :=
      Nat.lt_of_lt_of_le Nat.zero_lt_one (Nat.le_max_right _ _)
    exact_mod_cast h1
  refine ⟨hle, rfl, ?_, ?_⟩
  · exact div_nonneg (by positivity) (le_of_lt hden)
  · simp only [Exchange.get_stats]
    rw [div_le_one hden]
    have hnum : (xrun ops).dropped ≤ max (xrun ops).received 1 :=
      Nat.le_trans hle (Nat.le_max_left _ _)
    exact_mod_cast hnum

/-- C1 (the code at the claim's failing input): starting from the fresh
exchange, `update f1; update f2` with no intervening `get_latest` gives
`received = 2` but `dropped = 0` and `drop_rate = 0` (the drop branch
requires the available flag to be CLEAR, yet `update` leaves it set), so
the spec's `dropped = N - 1`, `drop_rate = 0.5` fails; the subsequent
`get_latest` does return the last frame `f2`. -/
theorem thm_C1_two_puts_eval :
    ((Exchange.init.update 1).update 2).received = 2 ∧
    ((Exchange.init.update 1).update 2).dropped = 0 ∧
    (((Exchange.init.update (1 : Nat)).update 2).get_stats).drop_rate = 0 ∧
    (((Exchange.init.update 1).update 2).get_latest).1 = some 2 := by
  refine ⟨rfl, rfl, ?_, rfl⟩
  simp [Exchange.init, Exchange.update, Exchange.get_stats]

/-- C7: a `put` immediately followed by a `take` returns exactly the
frame just put and clears the available flag, and a second immediate
`take` (the `timeout=0` call observes the clear flag) with no
intervening `put` returns no frame. -/
theorem thm_C7_put_take_roundtrip {α : Type} (ex : Exchange α) (f : α) :
    ((ex.update f).get_latest).1 = some f ∧
    ((ex.update f).get_latest).2.available = false ∧
    ((((ex.update f).get_latest).2).get_latest).1 = none := by
  simp [Exchange.update, Exchange.get_latest]

/-- C9 counterexample: after `update 7; get_latest` (which returned
frame `7`), the slot still stores `7` — `get_latest` clears only the
available flag, not the `_frame` reference, refuting the claim that the
stored frame is cleared as part of the take. -/
theorem thm_C9_counterexample :
    (((Exchange.init : Exchange Nat).update 7).get_latest).2.frame = some 7 ∧
    ¬ ((((Exchange.init : Exchange Nat).update 7).get_latest).2.frame = none) := by
  constructor
  · rfl
  · intro h
    simp [Exchange.init, Exchange.update, Exchange.get_latest] at h

/-- C9 amended: after a `take` returns frame `f`, the available flag is
clear so a further `take` without an intervening `put` returns no frame
(the frame is never delivered twice), but the exchange retains the
reference to `f` in its slot until the next `put` overwrites it. -/
theorem thm_C9_slot_retained_until_next_put {α : Type} (ex : Exchange α) (f : α) :
    (((ex.update f).get_latest).2).frame = some f ∧
    (((ex.update f).get_latest).2).available = false ∧
    ((((ex.update f).get_latest).2).get_latest).1 = none ∧
    ∀ g : α, ((((ex.update f).get_latest).2).update g).frame = some g := by
  refine ⟨?_, ?_, ?_, ?_⟩ <;> simp [Exchange.update, Exchange.get_latest]

/-- An event delivered by the Seek SDK event source (asynchronous
callbacks on the SDK thread): the manager-level events handled by
`ThermalCamera.on_event` (thermalcamera.py lines 30-52) plus the
per-session frame-available callback. -/
inductive SdkEvent where
  | connect
  | disconnect
  | error (code : Nat)
  | frame (f : Nat)
deriving DecidableEq

/-- One atomic action on the composed system: an orchestrator call to
`ThermalCamera.start` or `ThermalCamera.stop`, or an SDK-delivered
event. -/
inductive Act where
  | start
  | stop
  | sdk (e : SdkEvent)
deriving DecidableEq

/-- Whether an action is an SDK-delivered event (as opposed to an
orchestrator call). -/
def Act.isSdk : Act → Bool
  | Act.sdk _ => true
  | _ => false

/-- The `ThermalCamera` object of thermalcamera.py composed with the
SDK event source and with the frame sink `pipeline.update`, as wired in
`app.main` (the `_frame_callback` passed to the constructor).

`manager` and `camera` are the object's `_manager` and `_camera`
fields.  The SDK side (the `seekcamera` package is an external vendor
dependency, not part of this repository's sources) is modelled from the
spec's interface description: the event source delivers events only
while the manager is alive (not destroyed), and frames are delivered
only while a capture session started by `capture_session_start` is
active; `destroy()` releases the event source so nothing is delivered
afterwards.  `captureStopCalls` and `destroyCalls` count the calls made
to `capture_session_stop` and `manager.destroy`, observing resource
release.  `raisedErrors` records exceptions raised out of the event
callback onto the SDK thread. -/
structure SysState where
  manager : Option Unit
  camera : Option Unit
  managerAlive : Bool
  captureActive : Bool
  captureStopCalls : Nat
  destroyCalls : Nat
  raisedErrors : List Nat
  exch : Exchange Nat
deriving DecidableEq

/-- The system before any call: a fresh `ThermalCamera(pipeline.update)`
and a fresh exchange; no SDK manager exists yet. -/
def initSys : SysState :=
  { manager := none, camera := none, managerAlive := false,
    captureActive := false, captureStopCalls := 0, destroyCalls := 0,
    raisedErrors := [], exch := Exchange.init }

/-- `ThermalCamera.start` (thermalcamera.py lines 54-57): constructs
the `SeekCameraManager` (the SDK event source becomes alive) and
registers the event callback. -/
def cameraStart (s : SysState) : SysState :=
  { s with manager := some (), managerAlive := true }

/-- `ThermalCamera.stop` (thermalcamera.py lines 59-65): if `_camera`
is set, calls `capture_session_stop()`; then, if `_manager` is set,
calls `manager.destroy()` (the SDK event source dies).  Faithful to the
source: neither field is cleared. -/
def cameraStop (s : SysState) : SysState :=
  let s1 :=
    if s.camera.isSome then
      { s with captureActive := false, captureStopCalls := s.captureStopCalls + 1 }
    else s
  if s1.manager.isSome then
    { s1 with managerAlive := false, destroyCalls := s1.destroyCalls + 1 }
  else s1

/-- `ThermalCamera.on_event` and the frame path
`_on_frame` wrapper → `on_frame_impl` → `pipeline.update`
(thermalcamera.py lines 17-52).  A destroyed (or never created) event
source delivers nothing, so every event is a no-op when the manager is
not alive.  CONNECT stores the camera handle, registers the frame
callback and starts the capture session; DISCONNECT, when `_camera` is
set, stops the capture session and clears the field; ERROR executes
`raise RuntimeError(event_status)`, which leaves every field unchanged
and throws onto the SDK callback thread; a frame, delivered only while
the capture session is active, is forwarded to the sink
`pipeline.update`. -/
def onEvent (s : SysState) (e : SdkEvent) : SysState :=
  if !s.managerAlive then s
  else
    match e with
    | SdkEvent.connect =>
        { s with camera := some (), captureActive := true }
    | SdkEvent.disconnect =>
        if s.camera.isSome then
          { s with captureActive := false,
                   captureStopCalls := s.captureStopCalls + 1,
                   camera := none }
        else s
    | SdkEvent.error code =>
        { s with raisedErrors := code :: s.raisedErrors }
    | SdkEvent.frame f =>
        if s.captureActive then { s with exch := s.exch.update f } else s

/-- Effect of one action on the composed system. -/
def sysStep (s : SysState) : Act → SysState
  | Act.start => cameraStart s
  | Act.stop => cameraStop s
  | Act.sdk e => onEvent s e

/-- The system state after a sequence of actions. -/
def runActs (s : SysState) (acts : List Act) : SysState :=
  acts.foldl sysStep s

theorem runActs_append (s : SysState) (l1 l2 : List Act) :
    runActs s (l1 ++ l2) = runActs (runActs s l1) l2 := by
  simp [runActs, List.foldl_append]

/-- A live manager implies the `_manager` field is set (only `start`
makes the manager alive, and it sets the field). -/
def MgrInv (s : SysState) : Prop :=
  s.managerAlive = true → s.manager.isSome = true

theorem cameraStop_manager (s : SysState) :
    (cameraStop s).manager = s.manager := by
  cases hc : s.camera <;> cases hm : s.manager <;>
    simp [cameraStop, hc, hm]

/-- After `cameraStop` the manager is never alive (given the field
invariant): either the field was set and `destroy` ran, or the field
was clear and the manager was already dead. -/
theorem cameraStop_kills (s : SysState) (h : MgrInv s) :
    (cameraStop s).managerAlive = false := by
  cases hm : s.manager with
  | some u => cases hc : s.camera <;> simp [cameraStop, hm, hc]
  | none =>
      have halive : s.managerAlive = false := by
        by_contra hcon
        simp only [Bool.not_eq_false] at hcon
        have hsome := h hcon
        rw [hm] at hsome
        simp at hsome
      cases hc : s.camera <;> simp [cameraStop, hm, hc, halive]

theorem onEvent_manager (s : SysState) (e : SdkEvent) :
    (onEvent s e).manager = s.manager := by
  cases e <;>
    by_cases hm : s.managerAlive = true <;>
    by_cases hc : s.camera.isSome = true <;>
    by_cases ha : s.captureActive = true <;>
    simp [onEvent, hm, hc, ha]

theorem onEvent_alive (s : SysState) (e : SdkEvent) :
    (onEvent s e).managerAlive = s.managerAlive := by
  cases e <;>
    by_cases hm : s.managerAlive = true <;>
    by_cases hc : s.camera.isSome = true <;>
    by_cases ha : s.captureActive = true <;>
    simp [onEvent, hm, hc, ha]

theorem mgrInv_step (s : SysState) (a : Act) (h : MgrInv s) :
    MgrInv (sysStep s a) := by
  cases a with
  | start => intro _; simp [sysStep, cameraStart]
  | stop =>
      intro halive
      have hk : (sysStep s Act.stop).managerAlive = false := cameraStop_kills s h
      rw [hk] at halive
      exact absurd halive (by simp)
  | sdk e =>
      intro halive
      have halive2 : s.managerAlive = true := by
        rw [← onEvent_alive s e]
        exact halive
      show (onEvent s e).manager.isSome = true
      rw [onEvent_manager s e]
      exact h halive2

theorem mgrInv_runActs (acts : List Act) : MgrInv (runActs initSys acts) := by
  induction acts using List.reverseRecOn with
  | nil => intro h; simp [runActs, initSys] at h
  | append_singleton l a ih =>
      rw [runActs_append]
      exact mgrInv_step _ a ih

/-- A dead event source delivers nothing: with the manager not alive,
every SDK event leaves the system state unchanged. -/
theorem onEvent_dead (s : SysState) (e : SdkEvent)
    (h : s.managerAlive = false) : onEvent s e = s := by
  simp [onEvent, h]

theorem runActs_dead (post : List Act) :
    ∀ s : SysState, s.managerAlive = false →
      (∀ a ∈ post, a.isSdk = true) → runActs s post = s := by
  induction post with
  | nil => intro s _ _; rfl
  | cons a t ih =>
      intro s hdead hsdk
      have ha : a.isSdk = true := hsdk a (List.mem_cons_self a t)
      cases a with
      | start => simp [Act.isSdk] at ha
      | stop => simp [Act.isSdk] at ha
      | sdk e =>
          have hstep : sysStep s (Act.sdk e) = s := onEvent_dead s e hdead
          calc runActs s (Act.sdk e :: t)
              = runActs (sysStep s (Act.sdk e)) t := rfl
            _ = runActs s t := by rw [hstep]
            _ = s := ih s hdead (fun b hb => hsdk b (List.mem_cons_of_mem _ hb))

/-- C2: after `ThermalCamera.stop` returns, no SDK-delivered event (in
particular no frame delivery) changes the system state — so no further
`put` reaches the exchange and the received counter never increments
again, whatever happened before the stop. -/
theorem thm_C2_no_put_after_stop (pre post : List Act)
    (hpost : ∀ a ∈ post, a.isSdk = true) :
    (runActs initSys (pre ++ Act.stop :: post)).exch.received
      = (runActs initSys (pre ++ [Act.stop])).exch.received ∧
    runActs initSys (pre ++ Act.stop :: post)
      = runActs initSys (pre ++ [Act.stop]) := by
  have hsplit : pre ++ Act.stop :: post = (pre ++ [Act.stop]) ++ post := by
    simp
  have hdead : (runActs initSys (pre ++ [Act.stop])).managerAlive = false := by
    rw [runActs_append]
    exact cameraStop_kills _ (mgrInv_runActs pre)
  have heq : runActs initSys (pre ++ Act.stop :: post)
      = runActs initSys (pre ++ [Act.stop]) := by
    rw [hsplit, runActs_append]
    exact runActs_dead post _ hdead hpost
  exact ⟨by rw [heq], heq⟩

/-- C2 witness: a concrete run — start, connect, one frame, then stop,
then a late frame, a reconnect attempt and another frame — in which the
received counter stays at its pre-stop value 1. -/
theorem thm_C2_witness :
    (∀ a ∈ [Act.sdk (SdkEvent.frame 4), Act.sdk SdkEvent.connect,
            Act.sdk (SdkEvent.frame 5)], a.isSdk = true) ∧
    (runActs initSys ([Act.start, Act.sdk SdkEvent.connect, Act.sdk (SdkEvent.frame 3)]
        ++ Act.stop :: [Act.sdk (SdkEvent.frame 4), Act.sdk SdkEvent.connect,
                        Act.sdk (SdkEvent.frame 5)])).exch.received
      = (runActs initSys ([Act.start, Act.sdk SdkEvent.connect, Act.sdk (SdkEvent.frame 3)]
          ++ [Act.stop])).exch.received :=
  ⟨by decide,
   (thm_C2_no_put_after_stop
      [Act.start, Act.sdk SdkEvent.connect, Act.sdk (SdkEvent.frame 3)]
      [Act.sdk (SdkEvent.frame 4), Act.sdk SdkEvent.connect, Act.sdk (SdkEvent.frame 5)]
      (by decide)).1⟩

/-- C4 counterexample: `start; connect; stop; stop` ends with
`capture_session_stop` called twice and `manager.destroy` called twice —
`stop` clears neither `_camera` nor `_manager`, so the second call
repeats both releases, refuting "releases each resource at most once in
total". -/
theorem thm_C4_counterexample :
    (runActs initSys [Act.start, Act.sdk SdkEvent.connect, Act.stop, Act.stop]).captureStopCalls = 2 ∧
    (runActs initSys [Act.start, Act.sdk SdkEvent.connect, Act.stop, Act.stop]).destroyCalls = 2 := by
  constructor <;> rfl

/-- C4 amended: `stop` raises no error from any state (it is a total
function of the state); called from Idle (fresh object, never started)
it is a complete no-op releasing nothing; but because `stop` clears
neither field, each further call while `_camera`/`_manager` are set
repeats `capture_session_stop` and `manager.destroy`, so two consecutive
stops after a connect perform each release twice. -/
theorem thm_C4_stop_idle_noop_double_release :
    cameraStop initSys = initSys ∧
    (runActs initSys [Act.start, Act.sdk SdkEvent.connect, Act.stop]).captureStopCalls = 1 ∧
    (runActs initSys [Act.start, Act.sdk SdkEvent.connect, Act.stop]).destroyCalls = 1 ∧
    (runActs initSys [Act.start, Act.sdk SdkEvent.connect, Act.stop, Act.stop]).captureStopCalls = 2 ∧
    (runActs initSys [Act.start, Act.sdk SdkEvent.connect, Act.stop, Act.stop]).destroyCalls = 2 := by
  refine ⟨rfl, rfl, rfl, rfl, rfl⟩

/-- C5 counterexample: in the run `start; connect; error 5; frame 9`
the error event only raises `RuntimeError(5)` onto the SDK callback
thread (recorded in `raisedErrors`) and changes no session state, and
the very next frame is still forwarded to the sink (`received = 1`) —
so the error is not terminal, no `Failed` state exists, and nothing is
delivered to the orchestrating thread (whose only handler is for
`KeyboardInterrupt`). -/
theorem thm_C5_counterexample :
    (runActs initSys [Act.start, Act.sdk SdkEvent.connect,
        Act.sdk (SdkEvent.error 5), Act.sdk (SdkEvent.frame 9)]).exch.received = 1 ∧
    (runActs initSys [Act.start, Act.sdk SdkEvent.connect,
        Act.sdk (SdkEvent.error 5), Act.sdk (SdkEvent.frame 9)]).raisedErrors = [5] := by
  constructor <;> rfl

/-- C5 amended: an SDK error event makes the handler raise
`RuntimeError(event_status)` on the SDK callback thread and leaves
every field of the session and the exchange unchanged (no `Failed`
state is recorded, the failure reaches no orchestrator-side handler),
and streaming is not terminated: a frame delivered right after the
error is still forwarded to the sink. -/
theorem thm_C5_error_raises_no_state_change (s : SysState) (c f : Nat)
    (h1 : s.managerAlive = true) (h2 : s.captureActive = true) :
    onEvent s (SdkEvent.error c) = { s with raisedErrors := c :: s.raisedErrors } ∧
    (onEvent (onEvent s (SdkEvent.error c)) (SdkEvent.frame f)).exch.received
      = s.exch.received + 1 := by
  constructor
  · simp [onEvent, h1]
  · simp [onEvent, h1, h2, Exchange.update]

/-- C5 witness: the amended statement holds concretely in the streaming
state reached by `start; connect`. -/
theorem thm_C5_witness :
    (runActs initSys [Act.start, Act.sdk SdkEvent.connect]).managerAlive = true ∧
    (runActs initSys [Act.start, Act.sdk SdkEvent.connect]).captureActive = true ∧
    (onEvent (runActs initSys [Act.start, Act.sdk SdkEvent.connect]) (SdkEvent.error 5)
      = { runActs initSys [Act.start, Act.sdk SdkEvent.connect] with
            raisedErrors := 5 :: (runActs initSys [Act.start, Act.sdk SdkEvent.connect]).raisedErrors } ∧
     (onEvent (onEvent (runActs initSys [Act.start, Act.sdk SdkEvent.connect]) (SdkEvent.error 5))
        (SdkEvent.frame 9)).exch.received
       = (runActs initSys [Act.start, Act.sdk SdkEvent.connect]).exch.received + 1) :=
  ⟨rfl, rfl,
   thm_C5_error_raises_no_state_change
     (runActs initSys [Act.start, Act.sdk SdkEvent.connect]) 5 9 rfl rfl⟩

/-- One iteration body of the `processing_loop` function nested in
`app.main` (app.py lines 24-54), for an iteration whose `get_latest`
returned `frame`: if no frame arrived (timeout) the iteration does
nothing; otherwise it runs `pipeline.process` and then
`pipeline.visualize` — with NO exception handler around either call, so
an exception from either aborts the body.  `process` stands for the
detector call (including the metrics recording on its result) and
`visualize` for the renderer call. -/
def loop_body {F R E : Type} (process : F → Except E R)
    (visualize : R → Except E Unit) : Option F → Except E Unit
  | none => Except.ok ()
  | some f => (process f).bind visualize

/-- The `processing_loop` function of `app.main`, run over the sequence
of `get_latest` results of its iterations (the list ends when
`stop_event` is observed).  In Python an uncaught exception terminates
the thread, so the remaining iterations never run: this is the
short-circuiting `Except.bind`. -/
def processing_loop {F R E : Type} (process : F → Except E R)
    (visualize : R → Except E Unit) : List (Option F) → Except E Unit
  | [] => Except.ok ()
  | frame :: rest =>
      (loop_body process visualize frame).bind
        fun _ => processing_loop process visualize rest

/-- C3 counterexample: with a detector that raises on every frame, the
loop over two delivered frames terminates with that exception instead
of completing — nothing in the loop body catches it, refuting "caught
and logged inside the loop body, and the loop proceeds to the next
iteration". -/
theorem thm_C3_counterexample :
    processing_loop (fun _ : Nat => (Except.error 0 : Except Nat Nat))
        (fun _ => Except.ok ()) [some 1, some 2] = Except.error 0 ∧
    ¬ (processing_loop (fun _ : Nat => (Except.error 0 : Except Nat Nat))
        (fun _ => Except.ok ()) [some 1, some 2] = Except.ok ()) := by
  constructor
  · rfl
  · intro h
    exact Except.noConfusion h

/-- C3 amended: an exception raised by the detector or the renderer
while handling a frame propagates uncaught out of the loop body and
terminates the processing loop with that exception; the remaining
iterations (later frames) are never processed. -/
theorem thm_C3_exception_terminates_loop {F R E : Type}
    (process : F → Except E R) (visualize : R → Except E Unit)
    (f : F) (rest : List (Option F)) (e : E)
    (h : loop_body process visualize (some f) = Except.error e) :
    processing_loop process visualize (some f :: rest) = Except.error e := by
  show (loop_body process visualize (some f)).bind
      (fun _ => processing_loop process visualize rest) = Except.error e
  rw [h]
  rfl

/-- C3 witness: a concrete failing detector on frame `1` aborts the
loop before frame `2`. -/
theorem thm_C3_witness :
    loop_body (fun _ : Nat => (Except.error 3 : Except Nat Nat))
        (fun _ => Except.ok ()) (some 1) = Except.error 3 ∧
    processing_loop (fun _ : Nat => (Except.error 3 : Except Nat Nat))
        (fun _ => Except.ok ()) [some 1, some 2] = Except.error 3 :=
  ⟨rfl,
   thm_C3_exception_terminates_loop
     (fun _ : Nat => (Except.error 3 : Except Nat Nat))
     (fun _ => Except.ok ()) 1 [some 2] 3 rfl⟩

/-- A frame object handed to the SDK frame callback: the
`color_argb8888` attribute is the image buffer read by
`on_frame_impl`. -/
structure CameraFrame (F : Type) where
  color_argb8888 : F
deriving DecidableEq

/-- `ThermalCamera.on_frame_impl` (thermalcamera.py lines 17-28): if no
frame callback was given, return; otherwise read
`camera_frame.color_argb8888` and call the registered sink on it — with
no exception handler, so whatever the sink does is the result of the
callback. -/
def on_frame_impl {F E : Type} (frame_callback : Option (F → Except E Unit))
    (camera_frame : CameraFrame F) : Except E Unit :=
  match frame_callback with
  | none => Except.ok ()
  | some cb => cb camera_frame.color_argb8888

/-- C8 counterexample: a sink that raises makes the frame callback
itself raise — `on_frame_impl` wraps the sink call in no handler, so
the exception escapes onto the SDK callback thread, refuting "an
exception thrown by the sink is contained". -/
theorem thm_C8_counterexample :
    on_frame_impl (some (fun _ : Nat => (Except.error 7 : Except Nat Unit)))
        ⟨3⟩ = Except.error 7 ∧
    ¬ (on_frame_impl (some (fun _ : Nat => (Except.error 7 : Except Nat Unit)))
        ⟨3⟩ = Except.ok ()) := by
  constructor
  · rfl
  · intro h
    exact Except.noConfusion h

/-- C8 amended: the forwarding call passes the sink's outcome through
unchanged — a sink exception propagates out of the frame callback into
the SDK thread — and only an unregistered sink (callback `none`) makes
the callback a guaranteed no-raise no-op. -/
theorem thm_C8_sink_error_propagates {F E : Type}
    (cb : F → Except E Unit) (camera_frame : CameraFrame F) (e : E)
    (h : cb camera_frame.color_argb8888 = Except.error e) :
    on_frame_impl (some cb) camera_frame = Except.error e ∧
    on_frame_impl (none : Option (F → Except E Unit)) camera_frame = Except.ok () := by
  exact ⟨h, rfl⟩

/-- C8 witness: concrete raising sink. -/
theorem thm_C8_witness :
    ((fun _ : Nat => (Except.error 9 : Except Nat Unit)) ((3 : Nat)) = Except.error 9) ∧
    (on_frame_impl (some (fun _ : Nat => (Except.error 9 : Except Nat Unit)))
        ⟨3⟩ = Except.error 9 ∧
     on_frame_impl (none : Option (Nat → Except Nat Unit)) ⟨3⟩ = Except.ok ()) :=
  ⟨rfl,
   thm_C8_sink_error_propagates
     (fun _ : Nat => (Except.error 9 : Except Nat Unit)) ⟨3⟩ 9 rfl⟩

/-- The `result.boxes` object of a YOLO tracking result
(pipeline.py `_extract_detections`): `ids` is `result.boxes.id`
(`none` when the tracker has not yet assigned identifiers), `cls`,
`conf` and `xyxy` are the per-box class indices, confidences and
bounding boxes; the number of boxes is the length of `xyxy` (all four
tensors have one entry per box). -/
structure Boxes where
  ids : Option (List Int)
  cls : List Nat
  conf : List ℚ
  xyxy : List (ℚ × ℚ × ℚ × ℚ)
deriving DecidableEq

/-- The `results[0]` object: `boxes` may be `None`. -/
structure YoloResult where
  boxes : Option Boxes
deriving DecidableEq

/-- One detection dict produced by `_extract_detections`. -/
structure Detection where
  track_id : Int
  class_name : String
  confidence : ℚ
  bbox : ℚ × ℚ × ℚ × ℚ
deriving DecidableEq

/-- `FramePipeline._extract_detections` (pipeline.py lines 111-148),
after `result = results[0]`: empty list when `result.boxes` is `None`
or holds no boxes; otherwise `track_ids` is `result.boxes.id` when
present and the placeholder `list(range(len(result.boxes)))` when not,
and the loop over `result.boxes.xyxy` builds one dict per box with
`track_id = int(track_ids[i])`.  `names` is the model's class-name
table. -/
def extract_detections (names : Nat → String) (result : YoloResult) : List Detection :=
  match result.boxes with
  | none => []
  | some b =>
      if b.xyxy.length = 0 then []
      else
        let track_ids : List Int :=
          match b.ids with
          | some l => l
          | none => (List.range b.xyxy.length).map Int.ofNat
        (List.range b.xyxy.length).map fun i =>
          { track_id := track_ids.getD i 0,
            class_name := names (b.cls.getD i 0),
            confidence := b.conf.getD i 0,
            bbox := b.xyxy.getD i (0, 0, 0, 0) }

/-- C10: every detection dict carries an `Int`-valued `track_id` field
(by construction); when the tracker has assigned no identifiers
(`result.boxes.id` is `None`), the i-th detection's `track_id` is the
placeholder index `i`; and the output is literally identical to the one
produced when the tracker really assigned the identifiers `0..n-1`, so
a caller cannot distinguish a placeholder from a tracker-assigned
identifier. -/
theorem thm_C10_placeholder_track_ids (names : Nat → String) (b : Boxes)
    (h : b.ids = none) (i : Nat) (hi : i < b.xyxy.length) :
    (extract_detections names ⟨some b⟩)[i]?
      = some { track_id := Int.ofNat i,
               class_name := names (b.cls.getD i 0),
               confidence := b.conf.getD i 0,
               bbox := b.xyxy.getD i (0, 0, 0, 0) } ∧
    extract_detections names ⟨some b⟩
      = extract_detections names
          ⟨some { b with ids := some ((List.range b.xyxy.length).map Int.ofNat) }⟩ := by
  have hlen : ¬ b.xyxy.length = 0 := by
    intro h0
    rw [h0] at hi
    exact Nat.not_lt_zero i hi
  have hne : ¬ b.xyxy = [] := by
    intro h0
    rw [h0] at hi
    simp at hi
  constructor
  · simp [extract_detections, h, if_neg hlen, hne, List.getElem?_range hi]
  · simp only [extract_detections, h, if_neg hlen]

/-- A concrete two-box tracking result with no tracker-assigned
identifiers, used to witness the C10 theorem. -/
def twoBoxes : Boxes :=
  { ids := none, cls := [0, 0], conf := [1, 1],
    xyxy := [(0, 0, 1, 1), (2, 2, 3, 3)] }

/-- C10 witness: the two-box result with no tracker identifiers yields
the placeholder `track_id` `0` for its first detection, with an output
identical to the one a real assignment `0..n-1` would give. -/
theorem thm_C10_witness :
    (twoBoxes.ids = none) ∧ ((0 : Nat) < twoBoxes.xyxy.length) ∧
    ((extract_detections (fun _ => "moose") ⟨some twoBoxes⟩)[0]?
      = some { track_id := Int.ofNat 0,
               class_name := (fun _ : Nat => "moose") (twoBoxes.cls.getD 0 0),
               confidence := twoBoxes.conf.getD 0 0,
               bbox := twoBoxes.xyxy.getD 0 (0, 0, 0, 0) } ∧
     extract_detections (fun _ => "moose") ⟨some twoBoxes⟩
      = extract_detections (fun _ => "moose")
          ⟨some { twoBoxes with
                    ids := some ((List.range twoBoxes.xyxy.length).map Int.ofNat) }⟩) :=
  ⟨rfl, by decide,
   thm_C10_placeholder_track_ids (fun _ => "moose") twoBoxes rfl 0 (by decide)⟩
